import Mathlib

/-!
Verification of the lightroom-flickr audit tools.

This file shallowly embeds the two source modules of the repository:

* `lightroom_ops.py` : XMP decompression (`decompress_xmp`), the XMP
  document-id extractor (`extract_xmp_document_id`) and the catalog
  repoint write (`update_lr_remote_id`);
* `lightroom-flickr-audit.py` : the fix-singles loop of `main`, driving the
  repoint write over the single-candidate audit bucket entries.

Conventions of the embedding:

* Python values reachable by the extractor are modelled by `PyVal`
  (`None`, strings, mappings as association lists, lists) — exactly the
  shapes `etree_to_dict` produces.
* A Python exception propagating out of a function is modelled as an
  explicit error outcome (`Except.error`, or `UpdateResult.raised`).
  In `update_lr_remote_id`, the statement `raise(<format string>)` applies
  `raise` to a plain string, which raises a `TypeError` at runtime
  (a string is not an exception); `TypeError` is not a `sqlite3.Error`, so
  the surrounding `except sqlite3.Error` clause does not catch it and it
  propagates to the caller.  It is modelled as a raised outcome carrying
  the intended message text.
* Byte strings are `List Nat`; the external `zlib.decompress` is passed as
  a function parameter returning `Option` (`none` models `zlib.error`).
* The sqlite table `AgRemotePhoto` is a list of rows restricted to the
  columns the code touches; `cursor.rowcount` after the `UPDATE` is the
  number of rows matched by its `WHERE` clause.

`perform_audit`, imported by `main` from `audit_utils`, is not among the
repository sources available here; it is modelled from the specification
(section 4.2), as indicated in its doc comment.
-/

/-- Python values reachable by `extract_xmp_document_id`: `None`, strings,
mappings (association lists, insertion order kept) and lists. -/
inductive PyVal where
  | none
  | str (s : String)
  | dict (entries : List (String × PyVal))
  | list (elems : List PyVal)

/-- Python truthiness of a `PyVal` (the `if xmp_data` part of the guard). -/
def pyTruthy : PyVal → Bool
  | PyVal.none => false
  | PyVal.str s => !(s == "")
  | PyVal.dict es => !es.isEmpty
  | PyVal.list l => !l.isEmpty

/-- Python `isinstance(v, dict)`. -/
def isMapping : PyVal → Bool
  | PyVal.dict _ => true
  | _ => false

/-- Python `v.get(k, d)`: on a mapping, key lookup with default `d`; on any
other value, an `AttributeError` propagates (only mappings have `get`). -/
def pyGet (v : PyVal) (k : String) (d : PyVal) : Except String PyVal :=
  match v with
  | PyVal.dict es => Except.ok ((es.lookup k).getD d)
  | PyVal.str _ => Except.error "AttributeError: str object has no attribute get"
  | PyVal.list _ => Except.error "AttributeError: list object has no attribute get"
  | PyVal.none => Except.error "AttributeError: NoneType object has no attribute get"

/-- `extract_xmp_document_id` from `lightroom_ops.py`, line for line:
guard `if xmp_data and isinstance(xmp_data, dict)`, then the chain
`xmp_data.get("x:xmpmeta", {}).get("rdf:RDF", {})`,
`rdf.get("rdf:Description", {})`, and finally
`description.get("@xmpMM:DocumentID")` (default `None`); outside the guard
the function returns `None`.  An `Except.error` result models an exception
propagating out of the Python function. -/
def extract_xmp_document_id (xmp_data : PyVal) : Except String PyVal :=
  if pyTruthy xmp_data && isMapping xmp_data then
    match pyGet xmp_data "x:xmpmeta" (PyVal.dict []) with
    | Except.error e => Except.error e
    | Except.ok meta =>
      match pyGet meta "rdf:RDF" (PyVal.dict []) with
      | Except.error e => Except.error e
      | Except.ok rdf =>
        match pyGet rdf "rdf:Description" (PyVal.dict []) with
        | Except.error e => Except.error e
        | Except.ok description => pyGet description "@xmpMM:DocumentID" PyVal.none
  else
    Except.ok PyVal.none

/-- One step of the specification's safe optional-chaining read (section 9):
on a mapping, the value at the key, absent if missing; on anything else,
absent — never an error. -/
def specStep (v : PyVal) (k : String) : PyVal :=
  match v with
  | PyVal.dict es => (es.lookup k).getD PyVal.none
  | _ => PyVal.none

/-- The Identifier Extractor as the specification words it (sections 4.1
and 9): a safe optional-chaining read over the fixed path, returning absent
rather than raising on any missing or wrongly-shaped step.  Reference value
for the amended claim C2. -/
def extract_xmp_document_id_spec (x : PyVal) : PyVal :=
  specStep (specStep (specStep (specStep x "x:xmpmeta") "rdf:RDF") "rdf:Description")
    "@xmpMM:DocumentID"

/-- Total variant of `v.get(k, {})`, used only to state shape conditions:
on a mapping, the value at the key with the empty mapping as default; on a
non-mapping, the empty mapping. -/
def defGet (v : PyVal) (k : String) : PyVal :=
  match v with
  | PyVal.dict es => (es.lookup k).getD (PyVal.dict [])
  | _ => PyVal.dict []

/-- Shape condition under which the extractor's `.get` chain cannot hit a
non-mapping receiver: when the guard of `extract_xmp_document_id` passes,
every intermediate value the code actually reads (the metadata node, the
RDF node, the descriptor node) is a mapping. -/
def safeShape (x : PyVal) : Bool :=
  !(pyTruthy x && isMapping x) ||
    (isMapping (defGet x "x:xmpmeta") &&
     isMapping (defGet (defGet x "x:xmpmeta") "rdf:RDF") &&
     isMapping (defGet (defGet (defGet x "x:xmpmeta") "rdf:RDF") "rdf:Description"))

/-- Big-endian 32-bit read of the first four bytes, as `struct.unpack` with
the big-endian unsigned-int format does on `compressed_data[:4]`. -/
def readBE32 : List Nat → Nat
  | b0 :: b1 :: b2 :: b3 :: _ => ((b0 * 256 + b1) * 256 + b2) * 256 + b3
  | _ => 0

/-- `decompress_xmp` from `lightroom_ops.py`.  The external
`zlib.decompress` is the parameter `zlibDecompress` (`none` models a
`zlib.error`).  The result is paired with the list of console messages the
function prints; the length comparison against the four-byte header only
prints a message, it never rejects the decompressed data. -/
def decompress_xmp (zlibDecompress : List Nat → Option (List Nat))
    (compressed_data : List Nat) : Option (List Nat) × List String :=
  if compressed_data.length < 4 then (Option.none, [])
  else
    let uncompressed_length := readBE32 compressed_data
    match zlibDecompress (compressed_data.drop 4) with
    | Option.none => (Option.none, ["Failed to decompress XMP data"])
    | Option.some d =>
      if d.length = uncompressed_length then (Option.some d, [])
      else (Option.some d,
        ["Decompressed length does not match expected length"])

/-- Scanner for sqlite REPLACE over character lists: at each position, if
the pattern is a prefix of the remaining input, emit the replacement and
skip the pattern, else keep the character.  `fuel` bounds the recursion and
is always supplied as the input length (each step consumes at least one
character when the pattern is nonempty). -/
def replaceAllGo (pat rep : List Char) : Nat → List Char → List Char
  | _, [] => []
  | 0, rest => rest
  | fuel + 1, c :: s =>
    if pat.isPrefixOf (c :: s) then
      rep ++ replaceAllGo pat rep fuel (s.drop (pat.length - 1))
    else
      c :: replaceAllGo pat rep fuel s

/-- sqlite `REPLACE(s, pat, rep)`: every occurrence of the substring `pat`
in `s` is replaced by `rep`, scanning left to right; an empty pattern
leaves the string unchanged (sqlite semantics). -/
def sqlReplace (s pat rep : String) : String :=
  if pat.data.isEmpty then s
  else String.mk (replaceAllGo pat.data rep.data s.data.length s.data)

/-- A row of the `AgRemotePhoto` table, restricted to the columns the code
reads or writes; `photo` stands in for the identity of the row. -/
structure AgRemotePhotoRow where
  photo : Nat
  remoteId : String
  url : String
  photoNeedsUpdating : Nat
deriving DecidableEq

/-- The `AgRemotePhoto` table of the catalog, in row order. -/
abbrev Catalog := List AgRemotePhotoRow

/-- Outcome of a call to `update_lr_remote_id`: the returned boolean, or an
exception propagating out of the function. -/
inductive UpdateResult where
  | ok (b : Bool)
  | raised (msg : String)
deriving DecidableEq

/-- `update_lr_remote_id` from `lightroom_ops.py`.  The SELECT takes the
first row whose `remoteId` equals the old id; if there is none, the code
executes `raise(<string>)`, which propagates an uncaught `TypeError`
(modelled as `UpdateResult.raised` with the intended message; the
`except sqlite3.Error` clause does not catch it).  Otherwise the UPDATE
sets, on every row whose `remoteId` equals the old id, `remoteId` to the
new id, `url` to `REPLACE(url, old, new)` and `photoNeedsUpdating` to `1`,
then commits; the function returns `rowcount > 0`.  The Python local
`new_url` computed before the UPDATE is dead code and has no effect. -/
def update_lr_remote_id (db : Catalog) (old_flickr_id new_flickr_id : String) :
    UpdateResult × Catalog :=
  match db.find? (fun r => r.remoteId == old_flickr_id) with
  | Option.none =>
    (UpdateResult.raised ("No photo found with remote ID: " ++ old_flickr_id), db)
  | Option.some _ =>
    let db2 := db.map (fun r =>
      if r.remoteId == old_flickr_id then
        { r with
          remoteId := new_flickr_id,
          url := sqlReplace r.url old_flickr_id new_flickr_id,
          photoNeedsUpdating := 1 }
      else r)
    let rowcount := db.countP (fun r => r.remoteId == old_flickr_id)
    (UpdateResult.ok (decide (0 < rowcount)), db2)

/-- A catalog photo as the Audit Engine sees it (specification section 3).
`remoteId` is the stored remote-service identifier (the `lr_remote_id`
field of the dictionaries built by `get_lr_photos`), possibly absent. -/
structure LocalPhoto where
  localId : Nat
  remoteId : Option String
  captureTimestamp : Option Int
  fileName : String
  embeddedDocumentId : Option String
deriving DecidableEq

/-- A remote-service photo (specification section 3); `documentId` is the
embedded identifier the remote side exposes, when it exposes one. -/
structure RemotePhoto where
  id : String
  title : String
  uploadTimestamp : Int
  fileName : String
  documentId : Option String
deriving DecidableEq

/-- The four outcome buckets of the cascade (specification section 4.2). -/
inductive Bucket where
  | timestampMatches
  | filenameMatches
  | documentIdMatches
  | noMatches
deriving DecidableEq

/-- One audit report entry: the originating local photo and its full
candidate list (the `lr_photo` / `flickr_matches` fields the fix loop in
`main` reads). -/
structure AuditEntry where
  lr_photo : LocalPhoto
  flickr_matches : List RemotePhoto
deriving DecidableEq

/-- The audit report as `main` consumes it: the reconciliation list and the
four cascade buckets. -/
structure AuditReport where
  in_lr_not_in_flickr : List LocalPhoto
  timestamp_matches : List AuditEntry
  filename_matches : List AuditEntry
  document_id_matches : List AuditEntry
  no_matches : List AuditEntry
deriving DecidableEq

/-- Modelled from the spec: whether a local photo is already correctly
linked — its stored `remoteId` exactly matches some remote photo's `id`
(specification section 4.2, the pre-cascade check). -/
def alreadyLinked (R : List RemotePhoto) (p : LocalPhoto) : Bool :=
  match p.remoteId with
  | Option.some rid => R.any (fun r => r.id == rid)
  | Option.none => false

/-- Modelled from the spec: candidates of the timestamp strategy — exact
equality of `captureTimestamp` with `uploadTimestamp`; a photo with an
absent `captureTimestamp` never matches (section 4.2, edge-case policy). -/
def timestampCandidates (R : List RemotePhoto) (p : LocalPhoto) : List RemotePhoto :=
  match p.captureTimestamp with
  | Option.none => []
  | Option.some t => R.filter (fun r => r.uploadTimestamp == t)

/-- Modelled from the spec: candidates of the filename strategy —
case-sensitive exact string equality of file names (section 4.2). -/
def filenameCandidates (R : List RemotePhoto) (p : LocalPhoto) : List RemotePhoto :=
  R.filter (fun r => r.fileName == p.fileName)

/-- Modelled from the spec: candidates of the embedded-document-identifier
strategy — exact equality of the extracted identifier with the remote
photo's own embedded identifier, absent values never matching
(section 4.2, strategy 3). -/
def documentIdCandidates (R : List RemotePhoto) (p : LocalPhoto) : List RemotePhoto :=
  match p.embeddedDocumentId with
  | Option.none => []
  | Option.some d => R.filter (fun r => r.documentId == Option.some d)

/-- Modelled from the spec: the ordered cascade of section 4.2 for one
photo requiring reconciliation — the first strategy with one or more
candidates determines the bucket; the document-id strategy runs only when
`deepScanEnabled` is true; all empty means the no-match bucket. -/
def classify (deepScanEnabled : Bool) (R : List RemotePhoto) (p : LocalPhoto) :
    Bucket × List RemotePhoto :=
  let ts := timestampCandidates R p
  if ts = [] then
    let fn := filenameCandidates R p
    if fn = [] then
      if deepScanEnabled then
        let ds := documentIdCandidates R p
        if ds = [] then (Bucket.noMatches, []) else (Bucket.documentIdMatches, ds)
      else (Bucket.noMatches, [])
    else (Bucket.filenameMatches, fn)
  else (Bucket.timestampMatches, ts)

/-- Modelled from the spec: the entries of one bucket — the photos of the
pending list the cascade classifies into `b`, each with its full candidate
list. -/
def bucketEntries (deepScanEnabled : Bool) (R : List RemotePhoto)
    (pending : List LocalPhoto) (b : Bucket) : List AuditEntry :=
  (pending.filter (fun p => decide ((classify deepScanEnabled R p).1 = b))).map
    (fun p => AuditEntry.mk p (classify deepScanEnabled R p).2)

/-- Modelled from the spec: `perform_audit` (imported by `main` from
`audit_utils`, whose source is not part of this repository snapshot),
following specification section 4.2: photos already correctly linked are
excluded before the cascade; every remaining photo goes through the
ordered cascade into exactly one bucket; `in_lr_not_in_flickr` lists every
photo requiring reconciliation. -/
def perform_audit (L : List LocalPhoto) (R : List RemotePhoto)
    (deepScanEnabled : Bool) : AuditReport :=
  let pending := L.filter (fun p => !alreadyLinked R p)
  { in_lr_not_in_flickr := pending,
    timestamp_matches := bucketEntries deepScanEnabled R pending Bucket.timestampMatches,
    filename_matches := bucketEntries deepScanEnabled R pending Bucket.filenameMatches,
    document_id_matches := bucketEntries deepScanEnabled R pending Bucket.documentIdMatches,
    no_matches := bucketEntries deepScanEnabled R pending Bucket.noMatches }

/-- The fix loop passes `photo["lr_photo"]["lr_remote_id"]` straight to
`update_lr_remote_id`; a missing (NULL) value makes the SELECT
`WHERE remoteId = ?` match nothing, so the call takes the no-record path. -/
def update_lr_remote_id_dyn (db : Catalog) (old : Option String)
    (new_flickr_id : String) : UpdateResult × Catalog :=
  match old with
  | Option.some o => update_lr_remote_id db o new_flickr_id
  | Option.none =>
    (UpdateResult.raised "No photo found with remote ID: None", db)

/-- Trace of one run of the fix-singles loop of `main`: the catalog after
the run, the argument pairs of every `update_lr_remote_id` invocation
actually made (in order), and the message of the exception that aborted
the loop, if one was raised. -/
structure FixOutcome where
  db : Catalog
  calls : List (Option String × String)
  raisedMsg : Option String
deriving DecidableEq

/-- The inner fix loop of `main` (`--fix-singles`), over a flat list of
bucket entries: an entry is repointed exactly when its candidate list has
length one (`if len(photo["flickr_matches"]) == 1`), taking the single
candidate's id as the new id and the entry's stored remote id as the old
one.  `main` wraps no try/except around the call, so a raised exception
propagates and ends the loop: the remaining entries are not attempted. -/
def fix_singles (db : Catalog) : List AuditEntry → FixOutcome
  | [] => { db := db, calls := [], raisedMsg := Option.none }
  | e :: rest =>
    match e.flickr_matches with
    | [m] =>
      match update_lr_remote_id_dyn db e.lr_photo.remoteId m.id with
      | (UpdateResult.raised msg, db2) =>
        { db := db2,
          calls := [(e.lr_photo.remoteId, m.id)],
          raisedMsg := Option.some msg }
      | (UpdateResult.ok _, db2) =>
        let out := fix_singles db2 rest
        { db := out.db,
          calls := (e.lr_photo.remoteId, m.id) :: out.calls,
          raisedMsg := out.raisedMsg }
    | _ => fix_singles db rest

/-- The entries the fix loop of `main` iterates: the timestamp, filename
and document-id buckets, in that order (`for match_type in [...]`). -/
def fixEntriesOf (rep : AuditReport) : List AuditEntry :=
  rep.timestamp_matches ++ rep.filename_matches ++ rep.document_id_matches

/-- The whole fix-singles pass of `main` for one audit report. -/
def fix_singles_report (db : Catalog) (rep : AuditReport) : FixOutcome :=
  fix_singles db (fixEntriesOf rep)

/-- Catalog for C1: one row whose remote id is the old id of the repoint. -/
def dbC1 : Catalog := [AgRemotePhotoRow.mk 1 "111" "f/111" 0]

/-- Catalog for C3: no row carries the remote id the repoint looks up. -/
def dbC3 : Catalog := [AgRemotePhotoRow.mk 1 "888" "f/888" 0]

/-- Catalog for the C9 witness. -/
def dbW9 : Catalog :=
  [AgRemotePhotoRow.mk 1 "111" "a/111/b" 0, AgRemotePhotoRow.mk 2 "9" "c" 5]

/-- Well-shaped side-car tree for the C2 witness: the fixed path down to
the document-identity attribute is fully present. -/
def xW2 : PyVal :=
  PyVal.dict [("x:xmpmeta", PyVal.dict [("rdf:RDF", PyVal.dict [("rdf:Description",
    PyVal.dict [("@xmpMM:DocumentID", PyVal.str "doc-1")])])])]

/-- Local photo for the C7 witness: pending (stale stored remote id),
with a capture timestamp and filename both matching the remote photo. -/
def pC7 : LocalPhoto := LocalPhoto.mk 1 (Option.some "999") (Option.some 100) "a.jpg" Option.none

/-- Remote photo for the C7 witness. -/
def rC7 : RemotePhoto := RemotePhoto.mk "100" "t" 100 "a.jpg" Option.none

/-- Catalog for C4: one row for each of the two distinct stale remote ids. -/
def dbC4 : Catalog :=
  [AgRemotePhotoRow.mk 1 "711" "p/711" 0, AgRemotePhotoRow.mk 2 "733" "p/733" 0]

/-- First C4 bucket entry: single candidate, stale id 711. -/
def eC41 : AuditEntry :=
  AuditEntry.mk (LocalPhoto.mk 1 (Option.some "711") Option.none "a.jpg" Option.none)
    [RemotePhoto.mk "712" "t1" 5 "a.jpg" Option.none]

/-- Second C4 bucket entry: single candidate, same stale id 711 (a
duplicate record pointing at the same stale remote id). -/
def eC42 : AuditEntry :=
  AuditEntry.mk (LocalPhoto.mk 2 (Option.some "711") Option.none "b.jpg" Option.none)
    [RemotePhoto.mk "714" "t2" 6 "b.jpg" Option.none]

/-- Third C4 bucket entry: single candidate, stale id 733, still present in
the catalog when the loop reaches it — yet never attempted. -/
def eC43 : AuditEntry :=
  AuditEntry.mk (LocalPhoto.mk 3 (Option.some "733") Option.none "c.jpg" Option.none)
    [RemotePhoto.mk "734" "t3" 7 "c.jpg" Option.none]

/-- Audit report for C4: the three entries spread over the timestamp and
filename buckets the fix loop iterates. -/
def repC4 : AuditReport := AuditReport.mk [] [eC41, eC42] [eC43] [] []

/-- Catalog for the C5 counterexample. -/
def dbX5 : Catalog := [AgRemotePhotoRow.mk 1 "511" "q/511" 0]

/-- C5 counterexample entries: three single-candidate entries sharing the
stale remote id 511. -/
def eX51 : AuditEntry :=
  AuditEntry.mk (LocalPhoto.mk 1 (Option.some "511") Option.none "x.jpg" Option.none)
    [RemotePhoto.mk "512" "t" 1 "x.jpg" Option.none]

/-- Second C5 counterexample entry. -/
def eX52 : AuditEntry :=
  AuditEntry.mk (LocalPhoto.mk 2 (Option.some "511") Option.none "y.jpg" Option.none)
    [RemotePhoto.mk "513" "t" 2 "y.jpg" Option.none]

/-- Third C5 counterexample entry: exactly one candidate, but the loop dies
before reaching it. -/
def eX53 : AuditEntry :=
  AuditEntry.mk (LocalPhoto.mk 3 (Option.some "511") Option.none "z.jpg" Option.none)
    [RemotePhoto.mk "514" "t" 3 "z.jpg" Option.none]

/-- Audit report for the C5 counterexample. -/
def repX5 : AuditReport := AuditReport.mk [] [eX51, eX52, eX53] [] [] []

/-- The single candidate of an entry, when the entry has exactly one. -/
def singleCandidateId (e : AuditEntry) : Option String :=
  match e.flickr_matches with
  | [m] => Option.some m.id
  | _ => Option.none

/-- Catalog for the C5 witness. -/
def dbW5 : Catalog := [AgRemotePhotoRow.mk 1 "611" "w/611" 0]

/-- Remote candidate of the C5 witness entry. -/
def mW5 : RemotePhoto := RemotePhoto.mk "612" "t" 9 "w.jpg" Option.none

/-- C5 witness entry: one candidate, old id present in the catalog. -/
def eW5 : AuditEntry :=
  AuditEntry.mk (LocalPhoto.mk 1 (Option.some "611") Option.none "w.jpg" Option.none) [mW5]

/-- Audit report for the C5 witness. -/
def repW5 : AuditReport := AuditReport.mk [] [eW5] [] [] []

theorem isMapping_iff (v : PyVal) : isMapping v = true ↔ ∃ es, v = PyVal.dict es := by
  cases v <;> simp [isMapping]

/-- C1: refuted on the code (code bug).  On the catalog `dbC1` the first
call `update_lr_remote_id(conn, "111", "222")` succeeds (returns `True`),
and the claimed behaviour of the second identical call — no error, a
detectable no-op/failure result — does not happen: the second call finds
no record with remote id `"111"` any more and executes `raise(<string>)`,
so an uncaught `TypeError` propagates instead of a `False` return. -/
theorem repoint_second_call_raises :
    (update_lr_remote_id dbC1 "111" "222").1 = UpdateResult.ok true ∧
    (update_lr_remote_id (update_lr_remote_id dbC1 "111" "222").2 "111" "222").1 =
      UpdateResult.raised "No photo found with remote ID: 111" := by
  decide

/-- C3: refuted on the code (code bug).  When the prior lookup finds no
record for the old identifier, the operation is not reported as a failed
operation by return value: the code executes `raise(<string>)`, an uncaught
`TypeError` propagates (the `except sqlite3.Error` clause does not catch
it), and the catalog is left unchanged. -/
theorem repoint_missing_record_raises :
    update_lr_remote_id dbC3 "999" "222" =
      (UpdateResult.raised "No photo found with remote ID: 999", dbC3) := by
  decide

/-- C2 counterexample: the extractor is not total over malformed trees —
on a side-car tree whose metadata node is present but is a string (a shape
`etree_to_dict` produces for a text-only element), the `.get` chain raises
an `AttributeError` instead of returning absent. -/
theorem extract_xmp_document_id_raises_on_nondict :
    extract_xmp_document_id (PyVal.dict [("x:xmpmeta", PyVal.str "bad")]) =
      Except.error "AttributeError: str object has no attribute get" := rfl

/-- C4: refuted on the code (code bug).  In the fix loop over `repC4`, the
third entry has exactly one candidate, yet it is never attempted: the
second entry's repoint raises (its old id was consumed by the first
repoint), `main` wraps no try/except around the call, and the loop dies. -/
theorem fix_singles_abort_on_raise :
    eC43.flickr_matches.length = 1 ∧
    (fix_singles_report dbC4 repC4).raisedMsg =
      Option.some "No photo found with remote ID: 711" ∧
    ¬ ((Option.some "733", "734") ∈ (fix_singles_report dbC4 repC4).calls) := by
  decide

/-- C5 counterexample: the if-and-only-if fails on the code — in the fix
loop over `repX5`, entry `eX53` has exactly one candidate and is in the
iterated buckets, yet `update_lr_remote_id` is never invoked for it,
because an earlier entry's repoint raised and aborted the loop. -/
theorem fix_singles_single_not_invoked :
    eX53 ∈ fixEntriesOf repX5 ∧
    singleCandidateId eX53 = Option.some "514" ∧
    ¬ ((eX53.lr_photo.remoteId, "514") ∈ (fix_singles_report dbX5 repX5).calls) := by
  decide

/-- C9: on every successful call, the update maps exactly the rows whose
`remoteId` equals the old id — each gets `remoteId` set to the new id, its
`url` rewritten by replacing every occurrence of the old id with the new
one, and `photoNeedsUpdating` set to 1 — and every other row is unchanged. -/
theorem update_lr_remote_id_effects (db : Catalog) (old_flickr_id new_flickr_id : String)
    (h : (update_lr_remote_id db old_flickr_id new_flickr_id).1 = UpdateResult.ok true) :
    (update_lr_remote_id db old_flickr_id new_flickr_id).2 =
      db.map (fun r =>
        if r.remoteId == old_flickr_id then
          { r with
            remoteId := new_flickr_id,
            url := sqlReplace r.url old_flickr_id new_flickr_id,
            photoNeedsUpdating := 1 }
        else r) := by
  rcases hf : db.find? (fun r => r.remoteId == old_flickr_id) with _ | r0
  · exfalso
    have hr : (update_lr_remote_id db old_flickr_id new_flickr_id).1 =
        UpdateResult.raised ("No photo found with remote ID: " ++ old_flickr_id) := by
      unfold update_lr_remote_id
      rw [hf]
    rw [hr] at h
    exact UpdateResult.noConfusion h
  · unfold update_lr_remote_id
    rw [hf]

theorem update_lr_remote_id_effects_witness :
    (update_lr_remote_id dbW9 "111" "22").1 = UpdateResult.ok true ∧
    (update_lr_remote_id dbW9 "111" "22").2 =
      [AgRemotePhotoRow.mk 1 "22" "a/22/b" 1, AgRemotePhotoRow.mk 2 "9" "c" 5] :=
  ⟨by decide, (update_lr_remote_id_effects dbW9 "111" "22" (by decide)).trans (by decide)⟩

/-- C10: the result of `decompress_xmp` is exactly the decompressor's
output whenever the input has at least four bytes, whatever the big-endian
length header says — a header/payload length mismatch is tolerated (only
logged) — and it is absent exactly when the input is shorter than four
bytes or decompression itself fails. -/
theorem decompress_xmp_result (zlibDecompress : List Nat → Option (List Nat))
    (compressed_data : List Nat) :
    (decompress_xmp zlibDecompress compressed_data).1 =
      if compressed_data.length < 4 then Option.none
      else zlibDecompress (compressed_data.drop 4) := by
  unfold decompress_xmp
  by_cases h : compressed_data.length < 4
  · rw [if_pos h, if_pos h]
  · rw [if_neg h, if_neg h]
    cases hz : zlibDecompress (compressed_data.drop 4) with
    | none => rfl
    | some d =>
      dsimp only
      split <;> rfl

theorem fix_singles_calls_sound (es : List AuditEntry) :
    ∀ db : Catalog, ∀ c ∈ (fix_singles db es).calls,
      ∃ e ∈ es, ∃ m, e.flickr_matches = [m] ∧ c = (e.lr_photo.remoteId, m.id) := by
  induction es with
  | nil =>
    intro db c hc
    simp [fix_singles] at hc
  | cons e0 rest ih =>
    intro db c hc
    rcases hm : e0.flickr_matches with _ | ⟨m, tail⟩
    · rw [show fix_singles db (e0 :: rest) = fix_singles db rest by
        simp [fix_singles, hm]] at hc
      obtain ⟨e, he, m1, hm1, hc1⟩ := ih db c hc
      exact ⟨e, List.mem_cons_of_mem _ he, m1, hm1, hc1⟩
    · rcases tail with _ | ⟨m2, tail2⟩
      · rcases hu : update_lr_remote_id_dyn db e0.lr_photo.remoteId m.id with ⟨res, db2⟩
        cases res with
        | raised msg =>
          rw [show fix_singles db (e0 :: rest) =
              { db := db2, calls := [(e0.lr_photo.remoteId, m.id)],
                raisedMsg := Option.some msg } by
            simp [fix_singles, hm, hu]] at hc
          simp at hc
          exact ⟨e0, List.mem_cons_self _ _, m, hm, hc⟩
        | ok b =>
          rw [show fix_singles db (e0 :: rest) =
              { db := (fix_singles db2 rest).db,
                calls := (e0.lr_photo.remoteId, m.id) :: (fix_singles db2 rest).calls,
                raisedMsg := (fix_singles db2 rest).raisedMsg } by
            simp [fix_singles, hm, hu]] at hc
          simp only [List.mem_cons] at hc
          rcases hc with hc | hc
          · exact ⟨e0, List.mem_cons_self _ _, m, hm, hc⟩
          · obtain ⟨e, he, m1, hm1, hc1⟩ := ih db2 c hc
            exact ⟨e, List.mem_cons_of_mem _ he, m1, hm1, hc1⟩
      · rw [show fix_singles db (e0 :: rest) = fix_singles db rest by
          simp [fix_singles, hm]] at hc
        obtain ⟨e, he, m1, hm1, hc1⟩ := ih db c hc
        exact ⟨e, List.mem_cons_of_mem _ he, m1, hm1, hc1⟩

theorem fix_singles_calls_complete (es : List AuditEntry) :
    ∀ db : Catalog, (fix_singles db es).raisedMsg = Option.none →
      ∀ e ∈ es, ∀ m, e.flickr_matches = [m] →
        (e.lr_photo.remoteId, m.id) ∈ (fix_singles db es).calls := by
  induction es with
  | nil =>
    intro db _ e he
    simp at he
  | cons e0 rest ih =>
    intro db hnone e he m hm
    rcases hm0 : e0.flickr_matches with _ | ⟨m1, tail⟩
    · have heq : fix_singles db (e0 :: rest) = fix_singles db rest := by
        simp [fix_singles, hm0]
      rw [heq] at hnone ⊢
      rcases List.mem_cons.mp he with rfl | he2
      · rw [hm0] at hm
        exact absurd hm (by simp)
      · exact ih db hnone e he2 m hm
    · rcases tail with _ | ⟨m2, tail2⟩
      · rcases hu : update_lr_remote_id_dyn db e0.lr_photo.remoteId m1.id with ⟨res, db2⟩
        cases res with
        | raised msg =>
          have heq : fix_singles db (e0 :: rest) =
              { db := db2, calls := [(e0.lr_photo.remoteId, m1.id)],
                raisedMsg := Option.some msg } := by
            simp [fix_singles, hm0, hu]
          rw [heq] at hnone
          exact absurd hnone (by simp)
        | ok b =>
          have heq : fix_singles db (e0 :: rest) =
              { db := (fix_singles db2 rest).db,
                calls := (e0.lr_photo.remoteId, m1.id) :: (fix_singles db2 rest).calls,
                raisedMsg := (fix_singles db2 rest).raisedMsg } := by
            simp [fix_singles, hm0, hu]
          rw [heq] at hnone ⊢
          rcases List.mem_cons.mp he with rfl | he2
          · rw [hm0] at hm
            injection hm with h1 _
            subst h1
            exact List.mem_cons_self _ _
          · exact List.mem_cons_of_mem _ (ih db2 hnone e he2 m hm)
      · have heq : fix_singles db (e0 :: rest) = fix_singles db rest := by
          simp [fix_singles, hm0]
        rw [heq] at hnone ⊢
        rcases List.mem_cons.mp he with rfl | he2
        · rw [hm0] at hm
          exact absurd hm (by simp)
        · exact ih db hnone e he2 m hm

/-- C5 (amended): over the three buckets the fix loop of `main` iterates,
every `update_lr_remote_id` invocation made comes from an entry with
exactly one candidate (zero- or multiple-candidate entries are never
auto-applied); and whenever the loop completes without an exception, every
single-candidate entry is invoked.  (When an earlier entry's repoint
raises, the loop aborts and later single-candidate entries are not
invoked, so the unconditional if-and-only-if of the original claim fails;
see the counterexample.) -/
theorem fix_singles_singles_only (db : Catalog) (rep : AuditReport) :
    (∀ c ∈ (fix_singles_report db rep).calls,
       ∃ e ∈ fixEntriesOf rep, ∃ m, e.flickr_matches = [m] ∧
         c = (e.lr_photo.remoteId, m.id))
  ∧ ((fix_singles_report db rep).raisedMsg = Option.none →
       ∀ e ∈ fixEntriesOf rep, ∀ m, e.flickr_matches = [m] →
         (e.lr_photo.remoteId, m.id) ∈ (fix_singles_report db rep).calls) :=
  ⟨fun c hc => fix_singles_calls_sound (fixEntriesOf rep) db c hc,
   fun h e he m hm => fix_singles_calls_complete (fixEntriesOf rep) db h e he m hm⟩

theorem fix_singles_singles_only_witness :
    (Option.some "611", "612") ∈ (fix_singles_report dbW5 repW5).calls :=
  (fix_singles_singles_only dbW5 repW5).2 (by decide) eW5 (by decide) mW5 (by decide)

/-- C2 (amended): over every input tree in which each intermediate node the
extractor reads (metadata node, RDF node, descriptor node), when present,
is a mapping, `extract_xmp_document_id` returns — without any exception —
exactly the value of the specification's safe optional-chaining read: the
embedded document identifier if the full path is present, absent otherwise.
(On a tree with a present non-mapping intermediate node the code instead
raises an `AttributeError`; see the counterexample.) -/
theorem extract_xmp_document_id_safe_shapes (x : PyVal) (h : safeShape x = true) :
    extract_xmp_document_id x = Except.ok (extract_xmp_document_id_spec x) := by
  cases x with
  | none => rfl
  | str s =>
    simp [extract_xmp_document_id, extract_xmp_document_id_spec, specStep, isMapping]
  | list l =>
    simp [extract_xmp_document_id, extract_xmp_document_id_spec, specStep, isMapping]
  | dict es =>
    cases he : es.isEmpty with
    | true =>
      have hnil : es = [] := by
        cases es with
        | nil => rfl
        | cons a t => simp [List.isEmpty] at he
      subst hnil
      rfl
    | false =>
      have hguard : (pyTruthy (PyVal.dict es) && isMapping (PyVal.dict es)) = true := by
        simp [pyTruthy, isMapping, he]
      have h3 := h
      simp only [safeShape, hguard, Bool.not_true, Bool.false_or, Bool.and_eq_true] at h3
      obtain ⟨⟨hA, hB⟩, hC⟩ := h3
      cases hm1 : es.lookup "x:xmpmeta" with
      | none =>
        simp [extract_xmp_document_id, hguard, pyGet, hm1,
          extract_xmp_document_id_spec, specStep]
      | some m1 =>
        have h1 : isMapping m1 = true := by
          have hx := hA
          simp [defGet, hm1] at hx
          exact hx
        obtain ⟨ms, rfl⟩ := (isMapping_iff m1).mp h1
        cases hm2 : ms.lookup "rdf:RDF" with
        | none =>
          simp [extract_xmp_document_id, hguard, pyGet, hm1, hm2,
            extract_xmp_document_id_spec, specStep]
        | some m2 =>
          have h2 : isMapping m2 = true := by
            have hx := hB
            simp [defGet, hm1, hm2] at hx
            exact hx
          obtain ⟨rs, rfl⟩ := (isMapping_iff m2).mp h2
          cases hm3 : rs.lookup "rdf:Description" with
          | none =>
            simp [extract_xmp_document_id, hguard, pyGet, hm1, hm2, hm3,
              extract_xmp_document_id_spec, specStep]
          | some m3 =>
            have hd : isMapping m3 = true := by
              have hx := hC
              simp [defGet, hm1, hm2, hm3] at hx
              exact hx
            obtain ⟨ds, rfl⟩ := (isMapping_iff m3).mp hd
            simp [extract_xmp_document_id, hguard, pyGet, hm1, hm2, hm3,
              extract_xmp_document_id_spec, specStep]

theorem extract_xmp_document_id_safe_shapes_witness :
    safeShape xW2 = true ∧ extract_xmp_document_id xW2 = Except.ok (PyVal.str "doc-1") :=
  ⟨rfl, (extract_xmp_document_id_safe_shapes xW2 rfl).trans rfl⟩

theorem length_partition_by_bucket (f : LocalPhoto → Bucket) (l : List LocalPhoto) :
    l.length
      = (l.filter (fun q => decide (f q = Bucket.timestampMatches))).length
      + (l.filter (fun q => decide (f q = Bucket.filenameMatches))).length
      + (l.filter (fun q => decide (f q = Bucket.documentIdMatches))).length
      + (l.filter (fun q => decide (f q = Bucket.noMatches))).length := by
  induction l with
  | nil => rfl
  | cons q t ih =>
    cases hb : f q <;>
      simp [List.filter_cons, hb] <;>
      omega

theorem count_partition_by_bucket (p : LocalPhoto) (f : LocalPhoto → Bucket)
    (l : List LocalPhoto) :
    l.count p
      = (l.filter (fun q => decide (f q = Bucket.timestampMatches))).count p
      + (l.filter (fun q => decide (f q = Bucket.filenameMatches))).count p
      + (l.filter (fun q => decide (f q = Bucket.documentIdMatches))).count p
      + (l.filter (fun q => decide (f q = Bucket.noMatches))).count p := by
  induction l with
  | nil => rfl
  | cons q t ih =>
    cases hb : f q <;>
      simp [List.filter_cons, hb, List.count_cons] <;>
      omega

theorem length_filter_not_split (g : LocalPhoto → Bool) (l : List LocalPhoto) :
    (l.filter (fun p => !g p)).length = l.length - (l.filter g).length := by
  have hsum : (l.filter g).length + (l.filter (fun p => !g p)).length = l.length := by
    induction l with
    | nil => rfl
    | cons q t ih =>
      cases hg : g q <;> simp [List.filter_cons, hg] <;> omega
  omega

theorem bucketEntries_length (deepScanEnabled : Bool) (R : List RemotePhoto)
    (pending : List LocalPhoto) (b : Bucket) :
    (bucketEntries deepScanEnabled R pending b).length
      = (pending.filter (fun p => decide ((classify deepScanEnabled R p).1 = b))).length := by
  simp [bucketEntries]

theorem bucketEntries_map_photo (deepScanEnabled : Bool) (R : List RemotePhoto)
    (pending : List LocalPhoto) (b : Bucket) :
    (bucketEntries deepScanEnabled R pending b).map AuditEntry.lr_photo
      = pending.filter (fun p => decide ((classify deepScanEnabled R p).1 = b)) := by
  simp [bucketEntries, List.map_map, Function.comp_def]

/-- C6: partition completeness — the reconciliation list of the audit
report is exactly split by the four buckets: its length is the arithmetic
sum of the four bucket sizes, that length is the count of the input photos
minus the count of photos already correctly linked, and every photo
requiring reconciliation occurs in the four buckets exactly as often as it
occurs in the reconciliation list (so each one lands in exactly one
bucket). -/
theorem audit_partition_complete (L : List LocalPhoto) (R : List RemotePhoto)
    (deepScanEnabled : Bool) :
    ((perform_audit L R deepScanEnabled).in_lr_not_in_flickr.length
      = (perform_audit L R deepScanEnabled).timestamp_matches.length
      + (perform_audit L R deepScanEnabled).filename_matches.length
      + (perform_audit L R deepScanEnabled).document_id_matches.length
      + (perform_audit L R deepScanEnabled).no_matches.length)
  ∧ ((perform_audit L R deepScanEnabled).in_lr_not_in_flickr.length
      = L.length - (L.filter (fun p => alreadyLinked R p)).length)
  ∧ (∀ p : LocalPhoto,
      (perform_audit L R deepScanEnabled).in_lr_not_in_flickr.count p
        = ((perform_audit L R deepScanEnabled).timestamp_matches.map AuditEntry.lr_photo).count p
        + ((perform_audit L R deepScanEnabled).filename_matches.map AuditEntry.lr_photo).count p
        + ((perform_audit L R deepScanEnabled).document_id_matches.map AuditEntry.lr_photo).count p
        + ((perform_audit L R deepScanEnabled).no_matches.map AuditEntry.lr_photo).count p) := by
  refine ⟨?_, ?_, ?_⟩
  · show (L.filter (fun p => !alreadyLinked R p)).length
      = (bucketEntries deepScanEnabled R (L.filter (fun p => !alreadyLinked R p))
          Bucket.timestampMatches).length
      + (bucketEntries deepScanEnabled R (L.filter (fun p => !alreadyLinked R p))
          Bucket.filenameMatches).length
      + (bucketEntries deepScanEnabled R (L.filter (fun p => !alreadyLinked R p))
          Bucket.documentIdMatches).length
      + (bucketEntries deepScanEnabled R (L.filter (fun p => !alreadyLinked R p))
          Bucket.noMatches).length
    rw [bucketEntries_length, bucketEntries_length, bucketEntries_length, bucketEntries_length]
    exact length_partition_by_bucket (fun p => (classify deepScanEnabled R p).1) _
  · show (L.filter (fun p => !alreadyLinked R p)).length
      = L.length - (L.filter (fun p => alreadyLinked R p)).length
    exact length_filter_not_split (fun p => alreadyLinked R p) L
  · intro p
    show (L.filter (fun q => !alreadyLinked R q)).count p
      = ((bucketEntries deepScanEnabled R (L.filter (fun q => !alreadyLinked R q))
          Bucket.timestampMatches).map AuditEntry.lr_photo).count p
      + ((bucketEntries deepScanEnabled R (L.filter (fun q => !alreadyLinked R q))
          Bucket.filenameMatches).map AuditEntry.lr_photo).count p
      + ((bucketEntries deepScanEnabled R (L.filter (fun q => !alreadyLinked R q))
          Bucket.documentIdMatches).map AuditEntry.lr_photo).count p
      + ((bucketEntries deepScanEnabled R (L.filter (fun q => !alreadyLinked R q))
          Bucket.noMatches).map AuditEntry.lr_photo).count p
    rw [bucketEntries_map_photo, bucketEntries_map_photo, bucketEntries_map_photo,
      bucketEntries_map_photo]
    exact count_partition_by_bucket p (fun q => (classify deepScanEnabled R q).1) _

/-- C7: cascade priority — a photo requiring reconciliation whose capture
timestamp equals some remote photo's upload timestamp and whose file name
also equals some remote photo's file name is classified in the timestamp
bucket (with the full timestamp candidate list) and never appears in the
filename bucket; moreover every entry of the filename bucket comes from a
photo for which the timestamp strategy produced zero candidates. -/
theorem audit_cascade_priority (L : List LocalPhoto) (R : List RemotePhoto)
    (deepScanEnabled : Bool) (p : LocalPhoto)
    (hp : p ∈ (perform_audit L R deepScanEnabled).in_lr_not_in_flickr)
    (ht : ∃ r ∈ R, p.captureTimestamp = Option.some r.uploadTimestamp)
    (hf : ∃ r ∈ R, r.fileName = p.fileName) :
    (∃ e ∈ (perform_audit L R deepScanEnabled).timestamp_matches,
        e.lr_photo = p ∧ e.flickr_matches = timestampCandidates R p)
  ∧ (∀ e ∈ (perform_audit L R deepScanEnabled).filename_matches, e.lr_photo ≠ p)
  ∧ (∀ e ∈ (perform_audit L R deepScanEnabled).filename_matches,
        timestampCandidates R e.lr_photo = []) := by
  obtain ⟨r, hrR, hcap⟩ := ht
  have htsc : timestampCandidates R p
      = R.filter (fun r2 => r2.uploadTimestamp == r.uploadTimestamp) := by
    unfold timestampCandidates
    rw [hcap]
  have hts : timestampCandidates R p ≠ [] := by
    rw [htsc]
    intro hnil
    have hmem : r ∈ R.filter (fun r2 => r2.uploadTimestamp == r.uploadTimestamp) :=
      List.mem_filter.mpr ⟨hrR, by simp⟩
    rw [hnil] at hmem
    exact (List.not_mem_nil r) hmem
  have hclass : classify deepScanEnabled R p
      = (Bucket.timestampMatches, timestampCandidates R p) := by
    simp only [classify]
    rw [if_neg hts]
  have hfnAll : ∀ e ∈ (perform_audit L R deepScanEnabled).filename_matches,
      timestampCandidates R e.lr_photo = [] := by
    intro e hein
    have hein2 : e ∈ bucketEntries deepScanEnabled R
        (L.filter (fun q => !alreadyLinked R q)) Bucket.filenameMatches := hein
    unfold bucketEntries at hein2
    obtain ⟨q, hq, rfl⟩ := List.mem_map.mp hein2
    have hcq : (classify deepScanEnabled R q).1 = Bucket.filenameMatches :=
      of_decide_eq_true (List.mem_filter.mp hq).2
    show timestampCandidates R q = []
    by_contra h0
    have hq2 : (classify deepScanEnabled R q).1 = Bucket.timestampMatches := by
      simp only [classify]
      rw [if_neg h0]
    rw [hq2] at hcq
    exact Bucket.noConfusion hcq
  refine ⟨?_, ?_, hfnAll⟩
  · refine ⟨AuditEntry.mk p (timestampCandidates R p), ?_, rfl, rfl⟩
    show AuditEntry.mk p (timestampCandidates R p) ∈ bucketEntries deepScanEnabled R
      (L.filter (fun q => !alreadyLinked R q)) Bucket.timestampMatches
    unfold bucketEntries
    refine List.mem_map.mpr ⟨p, List.mem_filter.mpr ⟨hp, ?_⟩, ?_⟩
    · simp [hclass]
    · rw [hclass]
  · intro e he heq
    exact hts (heq ▸ hfnAll e he)

theorem audit_cascade_priority_witness :
    (∃ e ∈ (perform_audit [pC7] [rC7] true).timestamp_matches,
        e.lr_photo = pC7 ∧ e.flickr_matches = timestampCandidates [rC7] pC7)
  ∧ (∀ e ∈ (perform_audit [pC7] [rC7] true).filename_matches, e.lr_photo ≠ pC7)
  ∧ (∀ e ∈ (perform_audit [pC7] [rC7] true).filename_matches,
        timestampCandidates [rC7] e.lr_photo = []) :=
  audit_cascade_priority [pC7] [rC7] true pC7 (by decide)
    ⟨rC7, by decide, by decide⟩ ⟨rC7, by decide, by decide⟩

/-- C8: deep-scan gating — with the deep scan disabled, the document-id
bucket of the audit report is empty, whatever the inputs. -/
theorem audit_deep_scan_gating (L : List LocalPhoto) (R : List RemotePhoto) :
    (perform_audit L R false).document_id_matches = [] := by
  have h : ∀ q : LocalPhoto, ¬ ((classify false R q).1 = Bucket.documentIdMatches) := by
    intro q
    simp only [classify]
    by_cases h1 : timestampCandidates R q = []
    · rw [if_pos h1]
      by_cases h2 : filenameCandidates R q = []
      · rw [if_pos h2]
        simp
      · rw [if_neg h2]
        simp
    · rw [if_neg h1]
      simp
  show bucketEntries false R (L.filter (fun q => !alreadyLinked R q))
    Bucket.documentIdMatches = []
  unfold bucketEntries
  have hfil : (L.filter (fun q => !alreadyLinked R q)).filter
      (fun q => decide ((classify false R q).1 = Bucket.documentIdMatches)) = [] := by
    apply List.filter_eq_nil_iff.mpr
    intro a _
    simp [h a]
  rw [hfil]
  rfl
